import Mathlib

/-!
Shallow embedding of the weight-track statistical core
(src/src/components/WeightTrackerApp.tsx) and proofs about the claims of
its specification.

Conventions of the embedding:
* JavaScript numbers are modelled as exact rationals.  A JavaScript
  arithmetic result that is non-finite (NaN or an infinity, e.g. division
  by an exact zero) is modelled as `none : Option ℚ`; finite values are
  `some q`.  Comparisons against `none` are false, mirroring NaN
  comparisons.
* `Math.sqrt` is kept abstract as a function parameter `sqrtFn : ℚ → ℚ`
  applied to non-negative finite arguments; `Math.sqrt` of NaN or of a
  negative number is `none`.  All theorems hold for every choice of
  `sqrtFn`, and concrete evaluations only ever apply it on paths where its
  value is forced (argument `0`) or irrelevant.
* ISO date strings `YYYY-MM-DD` are modelled as `CivilDate` triples
  (year, 0-based month as in JavaScript `getMonth`, day of month).
  String comparison of canonical ISO dates is lexicographic comparison of
  the triples; `Date.getTime()` divided by the ms-per-day constant is the
  proleptic Gregorian day number `dayNumber` (the runtime is assumed to be
  in the UTC timezone, as usual for such date arithmetic).
-/

set_option maxRecDepth 3000

namespace WeightTrack

/-! ## Calendar dates -/

/-- A calendar date as the source's ISO strings denote it: year,
0-based month (JavaScript `getMonth` convention) and day of month. -/
structure CivilDate where
  year : ℤ
  month : ℤ
  day : ℤ
deriving DecidableEq

/-- Lexicographic order on dates; canonical ISO strings compare with
`localeCompare` exactly in this order. -/
def dateLe (a b : CivilDate) : Prop :=
  a.year < b.year ∨ (a.year = b.year ∧
    (a.month < b.month ∨ (a.month = b.month ∧ a.day ≤ b.day)))

/-- Strict lexicographic order on dates. -/
def dateLt (a b : CivilDate) : Prop :=
  a.year < b.year ∨ (a.year = b.year ∧
    (a.month < b.month ∨ (a.month = b.month ∧ a.day < b.day)))

instance (a b : CivilDate) : Decidable (dateLe a b) := by
  unfold dateLe; infer_instance

instance (a b : CivilDate) : Decidable (dateLt a b) := by
  unfold dateLt; infer_instance

/-- Cumulative days before the given 0-based month in a non-leap year;
month 12 (used by the source through JavaScript date rollover such as
`new Date(y, m + 1, 0)`) maps to the full year. -/
def monthDaysBefore (m : ℤ) : ℤ :=
  if m ≤ 0 then 0
  else if m = 1 then 31
  else if m = 2 then 59
  else if m = 3 then 90
  else if m = 4 then 120
  else if m = 5 then 151
  else if m = 6 then 181
  else if m = 7 then 212
  else if m = 8 then 243
  else if m = 9 then 273
  else if m = 10 then 304
  else if m = 11 then 334
  else 365

/-- Gregorian leap-year test. -/
def isLeapYear (y : ℤ) : Bool :=
  (y.emod 4 = 0 && y.emod 100 ≠ 0) || y.emod 400 = 0

/-- Number of leap years strictly before year `y` (proleptic Gregorian). -/
def leapYearsBefore (y : ℤ) : ℤ :=
  (y - 1).ediv 4 - (y - 1).ediv 100 + (y - 1).ediv 400

/-- Day number of a civil date relative to the Unix epoch 1970-01-01,
i.e. `new Date(...).getTime() / DAY_MS` for dates at UTC midnight.
`leapYearsBefore 1970 = 477`. -/
def dayNumber (d : CivilDate) : ℤ :=
  365 * (d.year - 1970) + (leapYearsBefore d.year - 477)
    + monthDaysBefore d.month
    + (if 2 ≤ d.month ∧ isLeapYear d.year then 1 else 0)
    + (d.day - 1)

/-! ## JavaScript number model -/

/-- A JavaScript number: `some q` for a finite value, `none` for a
non-finite one (NaN or an infinity). -/
abbrev JsNum := Option ℚ

/-- JavaScript addition; non-finite operands propagate. -/
def jsAdd : JsNum → JsNum → JsNum
  | some a, some b => some (a + b)
  | _, _ => none

/-- JavaScript subtraction; non-finite operands propagate. -/
def jsSub : JsNum → JsNum → JsNum
  | some a, some b => some (a - b)
  | _, _ => none

/-- JavaScript multiplication; non-finite operands propagate. -/
def jsMul : JsNum → JsNum → JsNum
  | some a, some b => some (a * b)
  | _, _ => none

/-- JavaScript division: a zero divisor yields a non-finite result
(NaN or ±Infinity). -/
def jsDiv : JsNum → JsNum → JsNum
  | some a, some b => if b = 0 then none else some (a / b)
  | _, _ => none

/-- `Math.abs`; NaN propagates. -/
def jsAbs (a : JsNum) : JsNum := a.map (fun q => |q|)

/-- `Math.min` of two values; NaN propagates. -/
def jsMin : JsNum → JsNum → JsNum
  | some a, some b => some (min a b)
  | _, _ => none

/-- `Math.max` of two values; NaN propagates. -/
def jsMax : JsNum → JsNum → JsNum
  | some a, some b => some (max a b)
  | _, _ => none

/-- `Math.sqrt`, with the value on non-negative finite arguments kept
abstract as `f`; NaN in, or a negative argument, gives NaN. -/
def jsSqrt (f : ℚ → ℚ) : JsNum → JsNum
  | some a => if a < 0 then none else some (f a)
  | none => none

/-- Left fold of JavaScript addition over a list, as `Array.reduce`
with initial accumulator `0`. -/
def jsSum (l : List JsNum) : JsNum := l.foldl jsAdd (some 0)

/-- Plain rational sum, for reductions whose operands are all finite. -/
def sumQ (l : List ℚ) : ℚ := l.foldl (· + ·) 0

/-- `Math.max` spread over a list (the source only spreads non-empty
lists, so the `[]` case is arbitrary). -/
def listMax : List ℚ → ℚ
  | [] => 0
  | a :: t => t.foldl max a

/-- `Math.min` spread over a list (the source only spreads non-empty
lists, so the `[]` case is arbitrary). -/
def listMin : List ℚ → ℚ
  | [] => 0
  | a :: t => t.foldl min a

/-! ## Data model -/

/-- A logged weight entry (`WeightEntry` in the source). -/
structure WeightEntry where
  date : CivilDate
  weight : ℚ
  calories : Option ℚ
deriving DecidableEq

/-- A body measurement, restricted to the only field the statistical
core reads (`bodyFat`); `none` models an absent field. -/
structure BodyMeasurement where
  date : CivilDate
  bodyFat : Option ℚ
deriving DecidableEq

/-- The closed enumeration of confidence levels. -/
inductive ConfLevel
  | c80
  | c90
  | c95
  | c99
deriving DecidableEq

/-- The fixed two-tailed z-scores (`zScores` in the source). -/
def zScore : ConfLevel → ℚ
  | .c80 => 1.28
  | .c90 => 1.645
  | .c95 => 1.96
  | .c99 => 2.576

/-- `KCAL_PER_KG` constant of the source. -/
def KCAL_PER_KG : ℚ := 7700

/-- `MIN_DAYS_FOR_INFERENCE` constant of the source. -/
def MIN_DAYS_FOR_INFERENCE : ℕ := 14

/-- Order on entries by date, as the source's
`sort((a, b) => a.date.localeCompare(b.date))`. -/
def entryDateLe (a b : WeightEntry) : Prop := dateLe a.date b.date

/-- Strict date order on entries; pairwise `entryDateLt` is the log
invariant (ascending dates, at most one entry per date). -/
def entryDateLt (a b : WeightEntry) : Prop := dateLt a.date b.date

instance : DecidableRel entryDateLe := fun a b => by
  unfold entryDateLe; infer_instance

instance : DecidableRel entryDateLt := fun a b => by
  unfold entryDateLt; infer_instance

/-- `[...entries].sort((a, b) => a.date.localeCompare(b.date))`. -/
def sortByDate (l : List WeightEntry) : List WeightEntry :=
  l.insertionSort entryDateLe

/-! ## Statistics primitives -/

/-- Result record of `linearRegression`. -/
structure LinReg where
  slope : JsNum
  intercept : JsNum
  r2 : JsNum
deriving DecidableEq

/-- `sumXY` of `linearRegression`: an out-of-range `y[i]` (when `y` is
shorter than `x`) is JavaScript `undefined` and poisons the reduce as
NaN. -/
def lrSumXY (x y : List ℚ) : JsNum :=
  jsSum (x.enum.map (fun p => jsMul (some p.2) (y.get? p.1)))

/-- The regression denominator `n·ΣX² − (ΣX)²` of `linearRegression`
(zero exactly when `x` has zero variance). -/
def lrDenom (x : List ℚ) : ℚ :=
  (x.length : ℚ) * sumQ (x.map (fun v => v * v)) - sumQ x * sumQ x

/-- The slope of `linearRegression`: the division is unguarded, so a
zero-variance `x` yields a non-finite slope. -/
def lrSlope (x y : List ℚ) : JsNum :=
  jsDiv (jsSub (jsMul (some (x.length : ℚ)) (lrSumXY x y)) (some (sumQ x * sumQ y)))
    (some (lrDenom x))

/-- The intercept of `linearRegression`. -/
def lrIntercept (x y : List ℚ) : JsNum :=
  jsDiv (jsSub (some (sumQ y)) (jsMul (lrSlope x y) (some (sumQ x))))
    (some (x.length : ℚ))

/-- The residual sum of squares of `linearRegression`. -/
def lrSSRes (x y : List ℚ) : JsNum :=
  jsSum (y.enum.map (fun p =>
    let fit := jsAdd (jsMul (lrSlope x y) (x.get? p.1)) (lrIntercept x y)
    jsMul (jsSub (some p.2) fit) (jsSub (some p.2) fit)))

/-- The R² of `linearRegression`: `1 − SSres/SStot`, also unguarded
(`y` of zero variance yields NaN). -/
def lrR2 (x y : List ℚ) : JsNum :=
  jsSub (some 1) (jsDiv (lrSSRes x y)
    (some (sumQ (y.map (fun v => (v - sumQ y / (x.length : ℚ)) ^ 2)))))

/-- `linearRegression` of the source: ordinary least squares on `x`, `y`.
Only `n < 2` is guarded; a zero denominator (zero variance in `x`)
produces a non-finite slope rather than the neutral zeros. -/
def linearRegression (x y : List ℚ) : LinReg :=
  if x.length < 2 then ⟨some 0, some 0, some 0⟩
  else ⟨lrSlope x y, lrIntercept x y, lrR2 x y⟩

/-! ## Period aggregator -/

/-- Grouping modes (`StatsGroupingOption`). -/
inductive StatsGrouping
  | g1w
  | g2w
  | g1m
  | g2m
deriving DecidableEq

/-- The `Map` key of `getGroupInfo`, modelled injectively: the source's
string keys (`iso(weekStart)`, `iso(startDate) + "_2w"`, `y-m`,
`y-bucketMonth`) are in bijection with these values. -/
inductive GroupKey
  | wk (monday : ℤ)
  | wk2 (startDay : ℤ)
  | mo (year month : ℤ)
  | mo2 (year bucketMonth : ℤ)
deriving DecidableEq

/-- Result of `getGroupInfo`: key plus the bucket's start and end dates
as day numbers (`startDate.getTime() / DAY_MS`, `endDate.getTime() / DAY_MS`). -/
structure GroupInfo where
  key : GroupKey
  startDay : ℤ
  endDay : ℤ
deriving DecidableEq

/-- `startOfWeek`: the Monday at or before the given day number.
`getDay()` of epoch day `e` is `(e + 4).emod 7` (1970-01-01 was a
Thursday), and the source subtracts `(day + 6) % 7` days. -/
def startOfWeekDay (e : ℤ) : ℤ :=
  e - ((e + 4).emod 7 + 6).emod 7

/-- `getGroupInfo` of the source, over day numbers. -/
def getGroupInfo (d : CivilDate) (g : StatsGrouping) : GroupInfo :=
  let e := dayNumber d
  match g with
  | .g1w =>
    let monday := startOfWeekDay e
    ⟨.wk monday, monday, monday + 7 - 1⟩
  | .g2w =>
    let monday := startOfWeekDay e
    let weeksSinceEpoch := monday.ediv 7
    let bucketStartWeek := 2 * weeksSinceEpoch.ediv 2
    let s := bucketStartWeek * 7
    ⟨.wk2 s, s, s + 14 - 1⟩
  | .g1m =>
    ⟨.mo d.year d.month, dayNumber ⟨d.year, d.month, 1⟩,
      dayNumber ⟨d.year, d.month + 1, 0⟩⟩
  | .g2m =>
    let bucketMonth := 2 * d.month.ediv 2
    ⟨.mo2 d.year bucketMonth, dayNumber ⟨d.year, bucketMonth, 1⟩,
      dayNumber ⟨d.year, bucketMonth + 2, 0⟩⟩

/-- One bucket of `weeklyGroups` (label strings are not modelled; the
key and start timestamp carry the same information). -/
structure WeeklyGroup where
  key : GroupKey
  startDay : ℤ
  data : List WeightEntry
deriving DecidableEq

/-- Insert an entry into the insertion-ordered bucket association list,
as `Map.set`/`push` does. -/
def pushGroup (k : GroupKey) (s : ℤ) (e : WeightEntry) :
    List WeeklyGroup → List WeeklyGroup
  | [] => [⟨k, s, [e]⟩]
  | g :: rest =>
    if g.key = k then ⟨g.key, g.startDay, g.data ++ [e]⟩ :: rest
    else g :: pushGroup k s e rest

/-- `weeklyGroups` of the source: group entries by `getGroupInfo` key
(insertion order), sort each bucket's data by date, then sort buckets by
start timestamp. -/
def weeklyGroups (entries : List WeightEntry) (g : StatsGrouping) :
    List WeeklyGroup :=
  let grouped := entries.foldl
    (fun acc e =>
      let info := getGroupInfo e.date g
      pushGroup info.key info.startDay e acc) []
  (grouped.map (fun gr => ⟨gr.key, gr.startDay, sortByDate gr.data⟩)
    : List WeeklyGroup).insertionSort (fun a b => a.startDay ≤ b.startDay)

/-- `computeMean`: sum divided by length (NaN on the empty list, as in
JavaScript). -/
def computeMean (l : List ℚ) : JsNum :=
  jsDiv (some (sumQ l)) (some l.length)

/-- `computeSD`: sample standard deviation about the given mean. -/
def computeSD (sqrtFn : ℚ → ℚ) (l : List ℚ) (mean : JsNum) : JsNum :=
  let sumSq := jsSum (l.map (fun v =>
    jsMul (jsSub (some v) mean) (jsSub (some v) mean)))
  jsSqrt sqrtFn (jsDiv sumSq (some ((l.length : ℚ) - 1)))

/-- `computeCI`: `mean ± z·sd/√n`. -/
def computeCI (sqrtFn : ℚ → ℚ) (mean sd : JsNum) (n : ℕ) (conf : ConfLevel) :
    JsNum × JsNum :=
  let se := jsDiv sd (jsSqrt sqrtFn (some (n : ℚ)))
  let margin := jsMul (some (zScore conf)) se
  (jsSub mean margin, jsAdd mean margin)

/-- One row of the `results` table (`WeeklyStats`); `change`/`changeCI`
are `none` on the first bucket. -/
structure WeeklyStats where
  key : GroupKey
  startDay : ℤ
  mean : JsNum
  sd : JsNum
  ci : JsNum × JsNum
  dataLength : ℕ
  change : JsNum
  changeCI : Option (JsNum × JsNum)
deriving DecidableEq

/-- Statistics for one bucket given the previous bucket's row, mirroring
the body of the `results` loop. -/
def statsFor (sqrtFn : ℚ → ℚ) (conf : ConfLevel) (g : WeeklyGroup)
    (prev : Option WeeklyStats) : WeeklyStats :=
  let weights := g.data.map (·.weight)
  let mean := computeMean weights
  let sd : JsNum := if 1 < weights.length then computeSD sqrtFn weights mean else some 0
  let ci := if 1 < weights.length then computeCI sqrtFn mean sd weights.length conf
            else (mean, mean)
  match prev with
  | none =>
    ⟨g.key, g.startDay, mean, sd, ci, weights.length, none, none⟩
  | some p =>
    let gain := jsSub mean p.mean
    let seCombined := jsSqrt sqrtFn (jsAdd
      (if 1 < weights.length then jsDiv (jsMul sd sd) (some weights.length) else some 0)
      (if 1 < p.dataLength then jsDiv (jsMul p.sd p.sd) (some p.dataLength) else some 0))
    let margin := jsMul (some (zScore conf)) seCombined
    ⟨g.key, g.startDay, mean, sd, ci, weights.length, gain,
      some (jsSub gain margin, jsAdd gain margin)⟩

/-- The `results` memo: fold the buckets into `WeeklyStats` rows, each
row's change computed against the previous row. -/
def resultsOf (sqrtFn : ℚ → ℚ) (groups : List WeeklyGroup) (conf : ConfLevel) :
    List WeeklyStats :=
  groups.foldl (fun acc g => acc ++ [statsFor sqrtFn conf g acc.getLast?]) []

/-! ## Trend and caloric inference -/

/-- `getAverageIntake`: `none` models the JavaScript `null` returned when
fewer than two entries carry calories. -/
def getAverageIntake (entries : List WeightEntry) : Option ℚ :=
  let withCalories := entries.filter (fun e => e.calories.isSome)
  if withCalories.length < 2 then none
  else some (sumQ (withCalories.map (fun e => e.calories.getD 0))
    / withCalories.length)

/-- One point of the predicted trend band. -/
structure TrendPoint where
  date : CivilDate
  weight : ℚ
  predicted : JsNum
  predictedLow : JsNum
  predictedHigh : JsNum
  predictedRange : JsNum
deriving DecidableEq

/-- Result record of `calculateCaloricInference`. -/
structure CalInf where
  maintenanceCalories : JsNum
  confidenceInterval : JsNum × JsNum
  weightChangeRate : JsNum
  weightChangeRateCI : JsNum × JsNum
  slopeCI : JsNum × JsNum
  intercept : JsNum
  daysOfData : ℚ
  r2 : JsNum
  trendData : List TrendPoint
deriving DecidableEq

/-- `calculateCaloricInference` of the source.  Note that the mean square
error divides by `n - 2` without a guard, so a two-point input produces a
non-finite slope standard error and confidence intervals. -/
def calculateCaloricInference (entries : List WeightEntry) (conf : ConfLevel)
    (sqrtFn : ℚ → ℚ) : Option CalInf :=
  match entries with
  | [] => none
  | [_] => none
  | e0 :: e1 :: rest =>
    let es := e0 :: e1 :: rest
    let x : List ℚ := es.map (fun e => ((dayNumber e.date - dayNumber e0.date : ℤ) : ℚ))
    let y : List ℚ := es.map (·.weight)
    let reg := linearRegression x y
    let n : ℚ := x.length
    let xMean := sumQ x / n
    let yMean := sumQ y / n
    let ssx := sumQ (x.map (fun v => (v - xMean) ^ 2))
    let mseNum := jsSum (y.enum.map (fun p =>
      let fit := jsSub (jsAdd (jsMul reg.slope (x.get? p.1)) (some yMean))
        (jsMul reg.slope (some xMean))
      jsMul (jsSub (some p.2) fit) (jsSub (some p.2) fit)))
    let mse := jsDiv mseNum (some (n - 2))
    let slopeSE := jsSqrt sqrtFn (jsDiv mse (some ssx))
    let z := zScore conf
    let slopeCI : JsNum × JsNum :=
      (jsSub reg.slope (jsMul (some z) slopeSE),
       jsAdd reg.slope (jsMul (some z) slopeSE))
    let weightChangeRate := reg.slope
    let avgIntake := getAverageIntake es
    let maintenanceCandidates : JsNum × JsNum :=
      match avgIntake with
      | some a =>
        (jsSub (some a) (jsMul slopeCI.2 (some KCAL_PER_KG)),
         jsSub (some a) (jsMul slopeCI.1 (some KCAL_PER_KG)))
      | none =>
        (jsAbs (jsMul slopeCI.1 (some KCAL_PER_KG)),
         jsAbs (jsMul slopeCI.2 (some KCAL_PER_KG)))
    let maintenanceCalories :=
      match avgIntake with
      | some a => jsSub (some a) (jsMul weightChangeRate (some KCAL_PER_KG))
      | none => jsAbs (jsMul weightChangeRate (some KCAL_PER_KG))
    let trendData := es.enum.map (fun p =>
      let xi := x.get? p.1
      let predicted := jsAdd (jsMul reg.slope xi) reg.intercept
      let predictedLow := jsAdd (jsMul slopeCI.1 xi) reg.intercept
      let predictedHigh := jsAdd (jsMul slopeCI.2 xi) reg.intercept
      (⟨p.2.date, p.2.weight, predicted, predictedLow, predictedHigh,
        jsSub predictedHigh predictedLow⟩ : TrendPoint))
    some ⟨maintenanceCalories,
      (jsMin maintenanceCandidates.1 maintenanceCandidates.2,
       jsMax maintenanceCandidates.1 maintenanceCandidates.2),
      weightChangeRate, slopeCI, slopeCI, reg.intercept,
      listMax x - listMin x + 1, reg.r2, trendData⟩

/-! ## Empirical kcal/kg estimator -/

/-- The interval pairs of `calculateEmpiricalKcalPerKg`: all pairs
`(i, j)` with `i < j`, both entries carrying calories and a positive day
gap; the pair is `(avgCalories, weightRate)`. -/
def pairsFrom (curr : WeightEntry) (rest : List WeightEntry) : List (ℚ × ℚ) :=
  rest.filterMap (fun next =>
    match curr.calories, next.calories with
    | some c1, some c2 =>
      let days : ℚ := ((dayNumber next.date - dayNumber curr.date : ℤ) : ℚ)
      if 0 < days then
        some ((c1 + c2) / 2, (next.weight - curr.weight) / days)
      else none
    | _, _ => none)

/-- All interval pairs of a (sorted) entry list, outer index first. -/
def empPairs : List WeightEntry → List (ℚ × ℚ)
  | [] => []
  | e :: rest => pairsFrom e rest ++ empPairs rest

/-- Number of interval pairs (`intervals`). -/
def empN (entries : List WeightEntry) : ℕ :=
  (empPairs (sortByDate entries)).length

/-- The four regression sums over the interval pairs:
`(sumX, sumY, sumXY, sumXX)` with x = average calories, y = weight rate. -/
def empSums (entries : List WeightEntry) : ℚ × ℚ × ℚ × ℚ :=
  let ps := empPairs (sortByDate entries)
  (sumQ (ps.map Prod.fst), sumQ (ps.map Prod.snd),
   sumQ (ps.map (fun p => p.1 * p.2)), sumQ (ps.map (fun p => p.1 * p.1)))

/-- The regression denominator `n·ΣX² − (ΣX)²`. -/
def empDenom (entries : List WeightEntry) : ℚ :=
  let s := empSums entries
  (empN entries : ℚ) * s.2.2.2 - s.1 * s.1

/-- The regression slope (kg/day per kcal/day); only meaningful when the
denominator is non-zero, which the source checks before dividing. -/
def empSlope (entries : List WeightEntry) : ℚ :=
  let s := empSums entries
  ((empN entries : ℚ) * s.2.2.1 - s.1 * s.2.1) / empDenom entries

/-- The regression intercept. -/
def empIntercept (entries : List WeightEntry) : ℚ :=
  let s := empSums entries
  (s.2.1 - empSlope entries * s.1) / (empN entries : ℚ)

/-- Result record of `calculateEmpiricalKcalPerKg`; `none` models the
JavaScript `null`. -/
structure EmpResult where
  empirical : Option ℚ
  maintenance : Option ℚ
  r2 : Option ℚ
  intervals : ℕ
deriving DecidableEq

/-- `calculateEmpiricalKcalPerKg` of the source: regress weight rate
against average calories over all interval pairs; fewer than 3 pairs, a
zero denominator or an exactly-zero slope give the all-null result. -/
def calculateEmpiricalKcalPerKg (entries : List WeightEntry) : EmpResult :=
  let intervals := empN entries
  if intervals < 3 then ⟨none, none, none, intervals⟩ else
  if empDenom entries = 0 then ⟨none, none, none, intervals⟩ else
  if empSlope entries = 0 then ⟨none, none, none, intervals⟩ else
  let slope := empSlope entries
  let intercept := empIntercept entries
  let ps := empPairs (sortByDate entries)
  let meanY := (empSums entries).2.1 / (intervals : ℚ)
  let ssTot := sumQ (ps.map (fun p => (p.2 - meanY) ^ 2))
  let ssRes := sumQ (ps.map (fun p => (p.2 - (slope * p.1 + intercept)) ^ 2))
  let r2 : ℚ := if ssTot = 0 then 0 else 1 - ssRes / ssTot
  ⟨some |1 / slope|, some (-intercept / slope), some r2, intervals⟩

/-- `getEmpiricalKcalPerKg` of the source: delegates to
`calculateEmpiricalKcalPerKg` (the rate argument is unused there) and
returns `empirical || null`. -/
def getEmpiricalKcalPerKg (entries : List WeightEntry) (_rate : ℚ) : Option ℚ :=
  match (calculateEmpiricalKcalPerKg entries).empirical with
  | some e => if e = 0 then none else some e
  | none => none

/-! ## Body composition estimator -/

/-- `CalibrationFactor` of the source. -/
structure CalibrationFactor where
  date : CivilDate
  muscleGainFactor : ℚ
  fatLossFactor : ℚ
deriving DecidableEq

/-- `BodyCompositionEstimate` of the source. -/
structure BodyCompositionEstimate where
  date : CivilDate
  weight : ℚ
  bodyFatPercentage : ℚ
  fatMass : ℚ
  leanMass : ℚ
  bodyFatPercentageCI : ℚ × ℚ
  isEstimated : Bool
deriving DecidableEq

/-- JavaScript truthiness of an optional calorie value (`e.calories`
used as a condition): present and non-zero. -/
def truthyCalories (e : WeightEntry) : Bool :=
  match e.calories with
  | some cv => decide (cv ≠ 0)
  | none => false

/-- JavaScript `o || d` on an optional number: the default replaces an
absent or zero (falsy) value. -/
def jsOrZeroDefault (o : Option ℚ) (d : ℚ) : ℚ :=
  match o with
  | some v => if v = 0 then d else v
  | none => d

/-- The fat fraction of `getFatLeanPercent` (the only projection the
estimator consumes): `clamp₀¹ ((kcal − 2000) / (7700 − 2000))`. -/
def fatPctOfKcal (kcal : ℚ) : ℚ :=
  max 0 (min 1 ((kcal - 2000) / (7700 - 2000)))

/-- The immutable context of one estimator pass. -/
structure BodyCompCtx where
  sortedEntries : List WeightEntry
  bodyFatMeasurements : List BodyMeasurement
  entriesRaw : List WeightEntry
  conf : ConfLevel
  sqrtFn : ℚ → ℚ
  startBodyFat : ℚ
  startFatMass : ℚ
  startLeanMass : ℚ
  startWeight : ℚ

/-- The running state of the pass that feeds the per-entry estimates:
running masses, last known fat percentage, last calibration anchor date
and the accumulated result rows. -/
structure CompState where
  currentFatMass : ℚ
  currentLeanMass : ℚ
  lastKnownFatPercentage : ℚ
  lastCalibrationDate : CivilDate
  results : List BodyCompositionEstimate

/-- The running calibration proposal state (`newCalibrationFactor`,
`shouldUpdateCalibration`). -/
structure CalibState where
  newCalibrationFactor : CalibrationFactor
  shouldUpdateCalibration : Bool
deriving DecidableEq

/-- The result row pushed for a measured (anchor) date. -/
def measuredEstimate (entry : WeightEntry) (actualBodyFat : ℚ) :
    BodyCompositionEstimate :=
  { date := entry.date
    weight := entry.weight
    bodyFatPercentage := actualBodyFat
    fatMass := entry.weight * (actualBodyFat / 100)
    leanMass := entry.weight - entry.weight * (actualBodyFat / 100)
    bodyFatPercentageCI := (actualBodyFat - 1, actualBodyFat + 1)
    isEstimated := false }

/-- The estimate-side effect of one loop iteration of
`calculateBodyComposition` (lines snapping to measurements,
interpolating with calories, carrying forward without, and seeding the
first entry).  The source never reads the calibration proposal when
computing estimates, which this factoring makes explicit. -/
def bodyCompStep (ctx : BodyCompCtx) (entry : WeightEntry)
    (prev : Option WeightEntry) (c : CompState) : CompState :=
  match ctx.bodyFatMeasurements.find? (fun m => decide (m.date = entry.date)) with
  | some meas =>
    let actualBodyFat := meas.bodyFat.getD 0
    let actualFatMass := entry.weight * (actualBodyFat / 100)
    { currentFatMass := actualFatMass
      currentLeanMass := entry.weight - actualFatMass
      lastKnownFatPercentage := actualBodyFat
      lastCalibrationDate :=
        match prev with
        | some _ => entry.date
        | none => c.lastCalibrationDate
      results := c.results ++ [measuredEstimate entry actualBodyFat] }
  | none =>
    match prev with
    | some prevEntry =>
      if truthyCalories entry && truthyCalories prevEntry then
        let weightChange := entry.weight - prevEntry.weight
        let empiricalRes := calculateEmpiricalKcalPerKg ctx.entriesRaw
        let kcalPerKgUsed := jsOrZeroDefault empiricalRes.empirical 7700
        let fatPct := fatPctOfKcal kcalPerKgUsed
        let leanPct := 1 - fatPct
        let fatUpdated := max (entry.weight * (3 / 100)) (c.currentFatMass + weightChange * fatPct)
        let leanUpdated := max (entry.weight * (1 / 2)) (c.currentLeanMass + weightChange * leanPct)
        let bodyFatPercentage := fatUpdated / entry.weight * 100
        let daysSinceCalibration : ℚ :=
          ((dayNumber entry.date - dayNumber c.lastCalibrationDate : ℤ) : ℚ)
        let confidenceMargin := 1 + daysSinceCalibration * (5 / 100)
        { c with
          currentFatMass := fatUpdated
          currentLeanMass := leanUpdated
          results := c.results ++ [{
            date := entry.date
            weight := entry.weight
            bodyFatPercentage := bodyFatPercentage
            fatMass := fatUpdated
            leanMass := leanUpdated
            bodyFatPercentageCI :=
              (max 3 (bodyFatPercentage - confidenceMargin),
               min (bodyFatPercentage + confidenceMargin) 60)
            isEstimated := true }] }
      else
        let bodyFatPercentage := c.lastKnownFatPercentage
        let fatMass := entry.weight * (bodyFatPercentage / 100)
        { c with
          results := c.results ++ [{
            date := entry.date
            weight := entry.weight
            bodyFatPercentage := bodyFatPercentage
            fatMass := fatMass
            leanMass := entry.weight - fatMass
            bodyFatPercentageCI := (bodyFatPercentage - 3, bodyFatPercentage + 3)
            isEstimated := true }] }
    | none =>
      { c with
        results := c.results ++ [{
          date := entry.date
          weight := entry.weight
          bodyFatPercentage := ctx.startBodyFat
          fatMass := ctx.startFatMass
          leanMass := ctx.startLeanMass
          bodyFatPercentageCI := (ctx.startBodyFat - 1, ctx.startBodyFat + 1)
          isEstimated := false }] }

/-- The calibration derivation of one iteration, separated from its
application to the running proposal: the derived fraction (`muscle` in a
surplus, `fatloss` in a deficit) depends only on the data, never on the
current calibration values, which the source blends in only at the two
write sites. -/
inductive CalibDelta
  | keep
  | muscle (date : CivilDate) (m : ℚ)
  | fatloss (date : CivilDate) (f : ℚ)
deriving DecidableEq

/-- The calibration-side derivation of one loop iteration of
`calculateBodyComposition`: on a measured date with a previous entry,
derive from the calories logged between the two anchors what fraction of
the surplus went to muscle (or of the deficit came from fat).  The
`getAverageIntake(...) as number` coercion of the source turns a
JavaScript `null` into `0` in arithmetic, and a non-finite inferred rate
(`weightChangeRate` NaN, modelled `none`) makes both sign tests false,
so neither branch fires — as does a null inference. -/
def calibDeltaOf (ctx : BodyCompCtx) (entry : WeightEntry)
    (prev : Option WeightEntry) (c : CompState) : CalibDelta :=
  match ctx.bodyFatMeasurements.find? (fun m => decide (m.date = entry.date)), prev with
  | some meas, some _ =>
    let actualBodyFat := meas.bodyFat.getD 0
    let actualFatMass := entry.weight * (actualBodyFat / 100)
    let daysBetween : ℚ :=
      ((dayNumber entry.date - dayNumber c.lastCalibrationDate : ℤ) : ℚ)
    let inRange : WeightEntry → Bool := fun e =>
      decide (dateLe c.lastCalibrationDate e.date) && decide (dateLe e.date entry.date)
    let calEntries := ctx.sortedEntries.filter (fun e => inRange e && truthyCalories e)
    let countDays := calEntries.length
    if 0 < countDays then
      let totalCalories := sumQ (calEntries.map (fun e => e.calories.getD 0))
      let avgDailyCalories := totalCalories / (countDays : ℚ)
      let rateArg : ℚ :=
        (((calculateCaloricInference ctx.entriesRaw ctx.conf ctx.sqrtFn).map
          (·.weightChangeRate)).getD none).getD 0
      let estimatedKcalPerKg : Option ℚ :=
        if MIN_DAYS_FOR_INFERENCE ≤ ctx.entriesRaw.length
            && (getAverageIntake ctx.entriesRaw).isSome then
          getEmpiricalKcalPerKg ctx.entriesRaw rateArg
        else none
      let kcalPerKg := jsOrZeroDefault estimatedKcalPerKg 7700
      let filtered := ctx.sortedEntries.filter inRange
      match (calculateCaloricInference filtered ctx.conf ctx.sqrtFn).map
          (·.weightChangeRate) with
      | some (some rate) =>
        let maintenanceCalories := (getAverageIntake filtered).getD 0 - rate * kcalPerKg
        let avgSurplus := avgDailyCalories - maintenanceCalories
        let totalSurplus := avgSurplus * daysBetween
        let theoreticalFatChange := totalSurplus / kcalPerKg
        let weightChange := entry.weight -
          (((ctx.sortedEntries.find? (fun e => decide (e.date = c.lastCalibrationDate))).map
            (·.weight)).getD 0)
        let resultsNow := c.results ++ [measuredEstimate entry actualBodyFat]
        let fatMassChange := actualFatMass - jsOrZeroDefault
          ((resultsNow.find? (fun r => decide (r.date = c.lastCalibrationDate))).map
            (·.fatMass))
          ctx.startFatMass
        if 0 < avgSurplus then
          if 0 < weightChange && 0 < theoreticalFatChange then
            .muscle entry.date
              (max 0 (min (7 / 10) (1 - fatMassChange / theoreticalFatChange)))
          else .keep
        else if avgSurplus < 0 then
          if weightChange < 0 && theoreticalFatChange < 0 then
            .fatloss entry.date
              (max (1 / 2) (min 1 (fatMassChange / theoreticalFatChange)))
          else .keep
        else .keep
      | _ => .keep
    else .keep
  | _, _ => .keep

/-- Blend a derived fraction into the running proposal by simple
averaging, exactly as the source's two `newCalibrationFactor` write
sites do. -/
def applyCalibDelta (k : CalibState) : CalibDelta → CalibState
  | .keep => k
  | .muscle d m =>
    { newCalibrationFactor := {
        date := d
        muscleGainFactor := (k.newCalibrationFactor.muscleGainFactor + m) / 2
        fatLossFactor := k.newCalibrationFactor.fatLossFactor }
      shouldUpdateCalibration := true }
  | .fatloss d f =>
    { newCalibrationFactor := {
        date := d
        muscleGainFactor := k.newCalibrationFactor.muscleGainFactor
        fatLossFactor := (k.newCalibrationFactor.fatLossFactor + f) / 2 }
      shouldUpdateCalibration := true }

/-- The calibration-side effect of one loop iteration. -/
def bodyCompCalibStep (ctx : BodyCompCtx) (entry : WeightEntry)
    (prev : Option WeightEntry) (c : CompState) (k : CalibState) : CalibState :=
  applyCalibDelta k (calibDeltaOf ctx entry prev c)

/-- The chronological pass of `calculateBodyComposition`: each entry
updates the estimate state and the calibration state. -/
def runBody (ctx : BodyCompCtx) :
    Option WeightEntry → List WeightEntry → CompState → CalibState →
    CompState × CalibState
  | _, [], c, k => (c, k)
  | prev, e :: rest, c, k =>
    runBody ctx (some e) rest (bodyCompStep ctx e prev c)
      (bodyCompCalibStep ctx e prev c k)

/-- Result of `calculateBodyComposition`: the per-entry series and the
proposed calibration (if any derivation fired during the pass). -/
structure BodyCompResult where
  estimates : List BodyCompositionEstimate
  newCalibrationFactor : Option CalibrationFactor
deriving DecidableEq

/-- The measurement list the estimator walks: body-fat-carrying rows in
date order. -/
def measurementsWithBF (ms : List BodyMeasurement) : List BodyMeasurement :=
  (ms.filter (fun m => m.bodyFat.isSome)).insertionSort
    (fun a b => dateLe a.date b.date)

/-- The core of `calculateBodyComposition` on an already-deconstructed
non-empty sorted list. -/
def bodyCompRun (entries : List WeightEntry) (measurements : List BodyMeasurement)
    (startBodyFat : ℚ) (conf : ConfLevel) (sqrtFn : ℚ → ℚ)
    (k0 : CalibState) : CompState × CalibState :=
  match sortByDate entries with
  | [] => (⟨0, 0, startBodyFat, ⟨1970, 0, 1⟩, []⟩, k0)
  | s0 :: srest =>
    let sortedEntries := s0 :: srest
    let startWeight := s0.weight
    let startFatMass := startWeight * (startBodyFat / 100)
    let ctx : BodyCompCtx := {
      sortedEntries := sortedEntries
      bodyFatMeasurements := measurementsWithBF measurements
      entriesRaw := entries
      conf := conf
      sqrtFn := sqrtFn
      startBodyFat := startBodyFat
      startFatMass := startFatMass
      startLeanMass := startWeight - startFatMass
      startWeight := startWeight }
    runBody ctx none sortedEntries
      ⟨startFatMass, startWeight - startFatMass, startBodyFat, s0.date, []⟩ k0

/-- `calculateBodyComposition` of the source: inert without a starting
body-fat percentage or without entries; otherwise one forward pass. -/
def calculateBodyComposition (entries : List WeightEntry)
    (measurements : List BodyMeasurement) (startingBodyFat : Option ℚ)
    (calibrationFactor : CalibrationFactor) (conf : ConfLevel)
    (sqrtFn : ℚ → ℚ) : BodyCompResult :=
  match startingBodyFat with
  | none => ⟨[], none⟩
  | some startBodyFat =>
    if entries.isEmpty then ⟨[], none⟩ else
    let r := bodyCompRun entries measurements startBodyFat conf sqrtFn
      ⟨calibrationFactor, false⟩
    ⟨r.1.results,
     if r.2.shouldUpdateCalibration then some r.2.newCalibrationFactor else none⟩

/-! ## Entry insertion -/

/-- `addEntry` of the source, after input parsing: rejects a non-positive
weight or calorie value (the `alert` paths leave the log unchanged),
otherwise removes any entry of the same date and inserts the new one,
re-sorting by date.  Duplicate dates are resolved last-write-wins and
never raise. -/
def addEntry (entries : List WeightEntry) (d : CivilDate) (w : ℚ)
    (c : Option ℚ) : List WeightEntry :=
  if w ≤ 0 then entries
  else if (match c with | some cv => decide (cv ≤ 0) | none => false) then entries
  else sortByDate (entries.filter (fun e => decide (e.date ≠ d)) ++ [⟨d, w, c⟩])

/-! ## Intake notice detector (modelled from the spec) -/

/-- The four anomaly categories of the intake notice detector. -/
inductive IntakeDirection
  | gain_larger_than_expected
  | gain_despite_deficit
  | loss_despite_surplus
  | loss_larger_than_expected
deriving DecidableEq

/-- An intake notice: direction, suggested signed kcal/day adjustment,
and the observed and expected weight-change rates it compares. -/
structure IntakeNotice where
  direction : IntakeDirection
  suggestedAdjustment : ℚ
  observedRate : ℚ
  expectedRate : ℚ
deriving DecidableEq

/-- Modelled from the spec: the noise-band cutoff of the intake notice
detector is an open implementation choice; following the spec's
instruction to pick and document an explicit constant satisfying the
qualitative scenarios (a 0.01 kg/day drift on a 2500 kcal baseline stays
inside the band, the flagged scenarios fall outside), the band is a
fixed 100 kcal/day equivalent. -/
def NOISE_BAND_KCAL : ℚ := 100

/-- Days of data spanned by a log: last date minus first date plus one
(0 for an empty log). -/
def noticeDays (entries : List WeightEntry) : ℤ :=
  match sortByDate entries with
  | [] => 0
  | first :: rest =>
    dayNumber (((first :: rest).getLast (List.cons_ne_nil first rest)).date)
      - dayNumber first.date + 1

/-- The observed weight trend of a log: the regression slope of weight
against elapsed days since the first (sorted) entry. -/
def noticeObserved (entries : List WeightEntry) : JsNum :=
  match sortByDate entries with
  | [] => none
  | first :: rest =>
    (linearRegression
      ((first :: rest).map (fun e =>
        ((dayNumber e.date - dayNumber first.date : ℤ) : ℚ)))
      ((first :: rest).map (·.weight))).slope

/-- Modelled from the spec: `computeIntakeNotice` is exported by the
component and exercised by the repository's tests, but its
implementation is not among the provided sources.  Following §4.5 of the
spec: the caloric-inference and empirical-estimator components are
injected collaborators; the detector returns null below
`MIN_DAYS_FOR_INFERENCE` days of data, null when no average intake,
maintenance estimate or finite observed trend is available, and null
when the observed-versus-expected gap (converted to kcal/day through the
best available kcal-per-kg value) lies inside the noise band; otherwise
it crosses the expected direction (average intake versus maintenance)
with the observed direction (regression slope sign) into one of four
categories, with `suggestedAdjustment` the signed kcal/day gap. -/
def computeIntakeNotice (entries : List WeightEntry) (conf : ConfLevel)
    (inferenceFn : List WeightEntry → ConfLevel → Option CalInf)
    (empFn : List WeightEntry → EmpResult) : Option IntakeNotice :=
  if noticeDays entries < (MIN_DAYS_FOR_INFERENCE : ℤ) then none else
  match inferenceFn entries conf with
  | none => none
  | some inference =>
    match getAverageIntake entries, inference.maintenanceCalories,
        noticeObserved entries with
    | some avgIntake, some maintenance, some observed =>
      let kcalPerKg := ((empFn entries).empirical).getD KCAL_PER_KG
      let expected := (avgIntake - maintenance) / kcalPerKg
      let gapKcal := (observed - expected) * kcalPerKg
      if |gapKcal| ≤ NOISE_BAND_KCAL then none
      else
        some {
          direction :=
            if 0 < observed then
              if avgIntake < maintenance then .gain_despite_deficit
              else .gain_larger_than_expected
            else
              if maintenance < avgIntake then .loss_despite_surplus
              else .loss_larger_than_expected
          suggestedAdjustment := gapKcal
          observedRate := observed
          expectedRate := expected }
    | _, _, _ => none

/-! ## Richer empirical estimator (modelled from the spec) -/

/-- Stability labels of the richer empirical estimator. -/
inductive Stability
  | stable
  | noisy
  | insufficient
deriving DecidableEq

/-- Result record of `calculateEmpiricalKcalPerKgHelper`. -/
structure EmpHelperResult where
  empirical : Option ℚ
  empiricalCI : Option (ℚ × ℚ)
  maintenance : Option ℚ
  r2 : Option ℚ
  intervals : ℕ
  stability : Stability
deriving DecidableEq

/-- Modelled from the spec: the cutoff separating a `noisy` from a
`stable` empirical kcal/kg estimate — the confidence interval is wide
when its half-width exceeds this fraction of the point estimate. -/
def WIDE_CI_FRACTION : ℚ := 1 / 2

/-- The slope-side regression data of the richer empirical estimator:
slope, intercept, R², and the slope confidence bounds from the standard
error `sqrt(MSE/SSx)` with `n − 2` degrees of freedom; `none` when fewer
than 3 pairs or a degenerate (zero-variance) regression. -/
def empHelperSlopeInfo (entries : List WeightEntry) (conf : ConfLevel)
    (sqrtFn : ℚ → ℚ) : Option (ℚ × ℚ × ℚ × ℚ × ℚ) :=
  let ps := empPairs (sortByDate entries)
  if ps.length < 3 then none else
  if empDenom entries = 0 then none else
  let n : ℚ := ps.length
  let slope := empSlope entries
  let intercept := empIntercept entries
  let meanY := (empSums entries).2.1 / n
  let ssTot := sumQ (ps.map (fun p => (p.2 - meanY) ^ 2))
  let ssRes := sumQ (ps.map (fun p => (p.2 - (slope * p.1 + intercept)) ^ 2))
  let r2 : ℚ := if ssTot = 0 then 0 else 1 - ssRes / ssTot
  let ssx := empDenom entries / n
  let se := sqrtFn (ssRes / (n - 2) / ssx)
  let z := zScore conf
  some (slope, intercept, r2, slope - z * se, slope + z * se)

/-- Whether the computed slope confidence interval straddles zero. -/
def empCIStraddles (entries : List WeightEntry) (conf : ConfLevel)
    (sqrtFn : ℚ → ℚ) : Bool :=
  match empHelperSlopeInfo entries conf sqrtFn with
  | some info => decide (info.2.2.2.1 ≤ 0 ∧ 0 ≤ info.2.2.2.2)
  | none => false

/-- Modelled from the spec: `calculateEmpiricalKcalPerKgHelper` is
exported by the component and exercised by the repository's tests, but
its implementation is not among the provided sources.  Following §4.4 of
the spec: fewer than 3 valid pairs, a degenerate regression, an
exactly-zero slope or a slope confidence interval straddling zero
classify as `insufficient` with null empirical value and CI; otherwise
the empirical kcal/kg is `|1/slope|`, its CI is the slope CI propagated
through the reciprocal, and the estimate is `noisy` when that CI's
half-width exceeds `WIDE_CI_FRACTION` of the point value, else
`stable`. -/
def calculateEmpiricalKcalPerKgHelper (entries : List WeightEntry)
    (conf : ConfLevel) (sqrtFn : ℚ → ℚ) : EmpHelperResult :=
  let intervals := empN entries
  match empHelperSlopeInfo entries conf sqrtFn with
  | none => ⟨none, none, none, none, intervals, .insufficient⟩
  | some info =>
    let slope := info.1
    let intercept := info.2.1
    let r2 := info.2.2.1
    let lo := info.2.2.2.1
    let hi := info.2.2.2.2
    if slope = 0 ∨ (lo ≤ 0 ∧ 0 ≤ hi) then
      ⟨none, none, none, none, intervals, .insufficient⟩
    else
      let empirical := |1 / slope|
      let eLo := min |1 / lo| |1 / hi|
      let eHi := max |1 / lo| |1 / hi|
      let stability : Stability :=
        if WIDE_CI_FRACTION * empirical < (eHi - eLo) / 2 then .noisy else .stable
      ⟨some empirical, some (eLo, eHi), some (-intercept / slope), some r2,
        intervals, stability⟩

/-! ## Concrete instances used in the claim proofs -/

/-- Three daily-logged entries on a perfectly linear gain at constant
calories (2024-01-01, -03, -05). -/
def eC1 : List WeightEntry :=
  [⟨⟨2024, 0, 1⟩, 70, some 3000⟩,
   ⟨⟨2024, 0, 3⟩, 71, some 3000⟩,
   ⟨⟨2024, 0, 5⟩, 72, some 3000⟩]

/-- A body-fat measurement on the last entry date of `eC1`. -/
def mC1 : List BodyMeasurement := [⟨⟨2024, 0, 5⟩, some 20⟩]

/-- The default calibration factor (muscle 0.3, fat loss 0.9). -/
def kC1 : CalibrationFactor := ⟨⟨2024, 0, 1⟩, 3 / 10, 9 / 10⟩

/-- The calibration factor proposed by the first estimator pass on
`eC1`/`mC1`. -/
def kC1next : CalibrationFactor := ⟨⟨2024, 0, 5⟩, 1 / 2, 9 / 10⟩

/-- A three-entry log whose interval pairs lie on an exact regression
line of non-zero slope. -/
def eC2 : List WeightEntry :=
  [⟨⟨2024, 0, 1⟩, 70, some 2300⟩,
   ⟨⟨2024, 0, 3⟩, 70.4, some 2600⟩,
   ⟨⟨2024, 0, 5⟩, 70.9, some 2900⟩]

/-- A two-point log 13 days apart, exercising the unguarded `n - 2`
division of the trend inference. -/
def eC4 : List WeightEntry :=
  [⟨⟨2024, 0, 1⟩, 70, none⟩, ⟨⟨2024, 0, 14⟩, 71, none⟩]

/-- A 15-day log gaining a kilogram while logging a 2000 kcal intake. -/
def eC5 : List WeightEntry :=
  [⟨⟨2024, 0, 1⟩, 70, some 2000⟩, ⟨⟨2024, 0, 15⟩, 71, some 2000⟩]

/-- A stubbed caloric inference (maintenance 2500 kcal with CI
[2400, 2600]), as the detector's injected collaborator. -/
def infC5val : CalInf :=
  ⟨some 2500, (some 2400, some 2600), some 0, (some 0, some 0),
   (some 0, some 0), some 0, 30, some (1 / 2), []⟩

/-- Constant inference collaborator returning `infC5val`. -/
def infC5 : List WeightEntry → ConfLevel → Option CalInf :=
  fun _ _ => some infC5val

/-- Constant empirical-estimator collaborator (7700 kcal/kg). -/
def empC5 : List WeightEntry → EmpResult :=
  fun _ => ⟨some 7700, some 2500, some (1 / 2), 10⟩

/-- A single entry on Thursday 2024-01-04, which the two-week bucketing
files under a bucket whose reported range ends the day before. -/
def eC7 : List WeightEntry := [⟨⟨2024, 0, 4⟩, 70, none⟩]

/-- A one-entry log used to exercise entry insertion. -/
def eC8 : List WeightEntry := [⟨⟨2024, 0, 1⟩, 70, none⟩]

/-- The date already present in `eC8`. -/
def dC8 : CivilDate := ⟨2024, 0, 1⟩

/-! ## Lemmas -/

theorem jsAdd_none_right (a : JsNum) : jsAdd a none = none := by
  cases a <;> rfl

theorem jsAdd_none_left (b : JsNum) : jsAdd none b = none := by
  cases b <;> rfl

theorem jsSub_none_right (a : JsNum) : jsSub a none = none := by
  cases a <;> rfl

theorem jsMul_none_left (b : JsNum) : jsMul none b = none := by
  cases b <;> rfl

theorem jsMul_none_right (a : JsNum) : jsMul a none = none := by
  cases a <;> rfl

theorem jsDiv_none_left (b : JsNum) : jsDiv none b = none := by
  cases b <;> rfl

theorem jsDiv_some_zero (a : JsNum) : jsDiv a (some 0) = none := by
  cases a <;> simp [jsDiv]

theorem foldl_jsAdd_none (l : List JsNum) : l.foldl jsAdd none = none := by
  induction l with
  | nil => rfl
  | cons a t ih => simpa [jsAdd_none_left] using ih

/-- A NaN anywhere in a reduce poisons the sum. -/
theorem jsSum_eq_none_of_mem {l : List JsNum} (h : none ∈ l) : jsSum l = none := by
  unfold jsSum
  generalize hacc : (some 0 : JsNum) = acc
  clear hacc
  induction l generalizing acc with
  | nil => cases h
  | cons a t ih =>
    rcases List.mem_cons.mp h with ha | ht
    · subst ha
      simpa [jsAdd_none_right] using foldl_jsAdd_none t
    · exact ih ht _

theorem foldl_add_eq (l : List ℚ) (a : ℚ) : l.foldl (· + ·) a = a + l.sum := by
  induction l generalizing a with
  | nil => simp
  | cons b t ih => simp [ih, add_assoc]

theorem sumQ_eq_sum (l : List ℚ) : sumQ l = l.sum := by
  simpa using foldl_add_eq l 0

/-- A constant list sums to length times the constant. -/
theorem sumQ_const {c : ℚ} {l : List ℚ} (h : ∀ a ∈ l, a = c) :
    sumQ l = l.length * c := by
  rw [sumQ_eq_sum, List.eq_replicate_of_mem h, List.sum_replicate,
    List.length_replicate, nsmul_eq_mul]

/-- Zero variance in `x` zeroes the regression denominator. -/
theorem lrDenom_eq_zero_of_const {x : List ℚ} {c : ℚ} (h : ∀ a ∈ x, a = c) :
    lrDenom x = 0 := by
  have hx : sumQ x = x.length * c := sumQ_const h
  have hxx : sumQ (x.map (fun v => v * v)) = x.length * (c * c) := by
    have : ∀ a ∈ x.map (fun v => v * v), a = c * c := by
      intro a ha
      obtain ⟨v, hv, rfl⟩ := List.mem_map.mp ha
      rw [h v hv]
    simpa using sumQ_const this
  rw [lrDenom, hx, hxx]
  ring

theorem lrSlope_none_of_const {x y : List ℚ} {c : ℚ} (h : ∀ a ∈ x, a = c) :
    lrSlope x y = none := by
  rw [lrSlope, lrDenom_eq_zero_of_const h]
  exact jsDiv_some_zero _

theorem lrIntercept_none {x y : List ℚ} (hs : lrSlope x y = none) :
    lrIntercept x y = none := by
  rw [lrIntercept, hs, jsMul_none_left, jsSub_none_right, jsDiv_none_left]

theorem lrSSRes_none {x y : List ℚ} (hs : lrSlope x y = none)
    (hi : lrIntercept x y = none) (hy : y ≠ []) : lrSSRes x y = none := by
  unfold lrSSRes
  apply jsSum_eq_none_of_mem
  have hlen : y.enum ≠ [] := by
    intro hnil
    have := List.enum_length (l := y)
    rw [hnil] at this
    exact hy (List.length_eq_zero.mp this.symm)
  obtain ⟨p, hp⟩ := List.exists_mem_of_ne_nil _ hlen
  refine List.mem_map.mpr ⟨p, hp, ?_⟩
  simp [hs, hi, jsMul_none_left, jsAdd_none_left, jsSub_none_right]

theorem lrR2_none {x y : List ℚ} (hs : lrSlope x y = none)
    (hi : lrIntercept x y = none) : lrR2 x y = none := by
  rcases y with _ | ⟨y0, yt⟩
  · rw [lrR2]
    have : lrSSRes x [] = some 0 := rfl
    rw [this]
    have : sumQ (([] : List ℚ).map (fun v => (v - sumQ [] / (x.length : ℚ)) ^ 2)) = 0 := rfl
    rw [this, jsDiv_some_zero, jsSub_none_right]
  · have hss := lrSSRes_none hs hi (by simp)
    rw [lrR2, hss, jsDiv_none_left, jsSub_none_right]

/-- Projection of the trend-inference result onto the inferred rate: the
rate is exactly the regression slope of weight against elapsed days
since the first entry. -/
theorem ci_rate_proj (e0 e1 : WeightEntry) (rest : List WeightEntry)
    (conf : ConfLevel) (f : ℚ → ℚ) :
    (calculateCaloricInference (e0 :: e1 :: rest) conf f).map (·.weightChangeRate)
      = some (linearRegression
          ((e0 :: e1 :: rest).map (fun e => ((dayNumber e.date - dayNumber e0.date : ℤ) : ℚ)))
          ((e0 :: e1 :: rest).map (·.weight))).slope := rfl

/-- On the `eC1` data, the estimator pass proposes exactly the average
of the incoming muscle-gain factor with the data-derived (clamped)
factor 0.7, anchored at the measurement date — for every incoming
calibration factor. -/
theorem c1_general (k : CalibrationFactor) :
    (calculateBodyComposition eC1 mC1 (some 20) k .c95 id).newCalibrationFactor
      = some ⟨⟨2024, 0, 5⟩, (k.muscleGainFactor + 7 / 10) / 2, k.fatLossFactor⟩ := by
  have hd1 : dayNumber ⟨2024, 0, 1⟩ = 19723 := by
    norm_num [dayNumber, leapYearsBefore, monthDaysBefore, isLeapYear]
  have hd3 : dayNumber ⟨2024, 0, 3⟩ = 19725 := by
    norm_num [dayNumber, leapYearsBefore, monthDaysBefore, isLeapYear]
  have hd5 : dayNumber ⟨2024, 0, 5⟩ = 19727 := by
    norm_num [dayNumber, leapYearsBefore, monthDaysBefore, isLeapYear]
  have hrateL : (calculateCaloricInference
      [(⟨⟨2024,0,1⟩, 70, some 3000⟩ : WeightEntry), ⟨⟨2024,0,3⟩, 71, some 3000⟩,
       ⟨⟨2024,0,5⟩, 72, some 3000⟩] .c95 id).map (·.weightChangeRate)
      = some (some (1/2)) := by
    rw [ci_rate_proj]
    simp only [List.map_cons, List.map_nil, hd1, hd3, hd5]
    norm_num [linearRegression, lrSlope, lrSumXY, lrDenom, sumQ, jsSum, jsAdd, jsMul,
      jsSub, jsDiv, List.enum, List.enumFrom, List.get?]
  have hsortL : sortByDate
      [(⟨⟨2024,0,1⟩, 70, some 3000⟩ : WeightEntry), ⟨⟨2024,0,3⟩, 71, some 3000⟩,
       ⟨⟨2024,0,5⟩, 72, some 3000⟩] =
      [(⟨⟨2024,0,1⟩, 70, some 3000⟩ : WeightEntry), ⟨⟨2024,0,3⟩, 71, some 3000⟩,
       ⟨⟨2024,0,5⟩, 72, some 3000⟩] := by
    simp +decide [sortByDate, List.insertionSort, List.orderedInsert, entryDateLe, dateLe]
  have hempL : calculateEmpiricalKcalPerKg
      [(⟨⟨2024,0,1⟩, 70, some 3000⟩ : WeightEntry), ⟨⟨2024,0,3⟩, 71, some 3000⟩,
       ⟨⟨2024,0,5⟩, 72, some 3000⟩] = ⟨none, none, none, 3⟩ := by
    have hpairsL : empPairs (sortByDate
        [(⟨⟨2024,0,1⟩, 70, some 3000⟩ : WeightEntry), ⟨⟨2024,0,3⟩, 71, some 3000⟩,
         ⟨⟨2024,0,5⟩, 72, some 3000⟩]) = [(3000, 1/2), (3000, 1/2), (3000, 1/2)] := by
      rw [hsortL]
      simp only [empPairs, pairsFrom, List.filterMap_cons, List.filterMap_nil, hd1, hd3, hd5]
      norm_num
    simp only [calculateEmpiricalKcalPerKg, empN, empDenom, empSums, hpairsL]
    norm_num [sumQ]
  have hintakeL : getAverageIntake
      [(⟨⟨2024,0,1⟩, 70, some 3000⟩ : WeightEntry), ⟨⟨2024,0,3⟩, 71, some 3000⟩,
       ⟨⟨2024,0,5⟩, 72, some 3000⟩] = some 3000 := by
    simp [getAverageIntake, sumQ]
    norm_num
  have hmeasL : measurementsWithBF [(⟨⟨2024,0,5⟩, some 20⟩ : BodyMeasurement)]
      = [(⟨⟨2024,0,5⟩, some 20⟩ : BodyMeasurement)] := by
    simp [measurementsWithBF, List.insertionSort]
  simp only [eC1, mC1, calculateBodyComposition, List.isEmpty_cons, Bool.false_eq_true,
    if_false, bodyCompRun, hsortL, hmeasL, runBody]
  have hle11 : dateLe ⟨2024,0,1⟩ ⟨2024,0,1⟩ := by simp [dateLe]
  have hle13 : dateLe ⟨2024,0,1⟩ ⟨2024,0,3⟩ := by simp [dateLe]
  have hle15 : dateLe ⟨2024,0,1⟩ ⟨2024,0,5⟩ := by simp [dateLe]
  have hle35 : dateLe ⟨2024,0,3⟩ ⟨2024,0,5⟩ := by simp [dateLe]
  have hle55 : dateLe ⟨2024,0,5⟩ ⟨2024,0,5⟩ := by simp [dateLe]
  norm_num [bodyCompStep, bodyCompCalibStep, calibDeltaOf, applyCalibDelta, measuredEstimate,
    List.find?, truthyCalories, List.filter_cons, List.filter_nil, sumQ,
    jsOrZeroDefault, fatPctOfKcal, getEmpiricalKcalPerKg, MIN_DAYS_FOR_INFERENCE,
    hd1, hd3, hd5, hrateL, hempL, hintakeL, hle11, hle13, hle15, hle35, hle55,
    CivilDate.mk.injEq]

theorem jsSqrt_none (f : ℚ → ℚ) : jsSqrt f none = none := rfl

theorem dateLe_total (a b : CivilDate) : dateLe a b ∨ dateLe b a := by
  unfold dateLe; omega

theorem dateLe_trans {a b c : CivilDate} (h1 : dateLe a b) (h2 : dateLe b c) :
    dateLe a c := by
  unfold dateLe at *; omega

instance : IsTotal WeightEntry entryDateLe :=
  ⟨fun a b => dateLe_total a.date b.date⟩

instance : IsTrans WeightEntry entryDateLe :=
  ⟨fun _ _ _ => dateLe_trans⟩

theorem dateLt_irrefl (a : CivilDate) : ¬ dateLt a a := by
  unfold dateLt; omega

theorem dateLt_of_le_of_ne {a b : CivilDate} (h : dateLe a b) (hne : a ≠ b) :
    dateLt a b := by
  rcases a with ⟨a1, a2, a3⟩
  rcases b with ⟨b1, b2, b3⟩
  simp only [dateLe, dateLt, ne_eq, CivilDate.mk.injEq] at *
  omega

theorem entryDateLt_date_ne {a b : WeightEntry} (h : entryDateLt a b) :
    a.date ≠ b.date := by
  intro hab
  unfold entryDateLt at h
  rw [hab] at h
  exact dateLt_irrefl _ h

/-- A sorted entry list with pairwise-distinct dates is strictly
ascending. -/
theorem pairwise_lt_of_sorted_nodup {l : List WeightEntry}
    (hs : List.Sorted entryDateLe l)
    (hn : l.Pairwise (fun a b => a.date ≠ b.date)) :
    l.Pairwise entryDateLt :=
  (hs.and hn).imp (fun h => dateLt_of_le_of_ne h.1 h.2)

/-! ## Claims -/

/-- C1: the update-then-recompute cycle of the calibration factor does
NOT reach a fixed point after a single feedback step.  On a constant-
calorie linear gain with a body-fat measurement on the last day, the
first estimator pass proposes muscle-gain factor 1/2 (average of the
default 0.3 with the data-derived clamp 0.7); committing that proposal
and recomputing proposes 3/5 — a further change, and each subsequent
step keeps averaging toward 0.7, so the cascade does not stop after one
feedback step. -/
theorem c1_calibration_not_fixed_point :
    (calculateBodyComposition eC1 mC1 (some 20) kC1 .c95 id).newCalibrationFactor
      = some kC1next
    ∧ (calculateBodyComposition eC1 mC1 (some 20) kC1next .c95 id).newCalibrationFactor
      = some ⟨⟨2024, 0, 5⟩, 3 / 5, 9 / 10⟩
    ∧ (3 / 5 : ℚ) ≠ 1 / 2 := by
  refine ⟨(c1_general kC1).trans ?_, (c1_general kC1next).trans ?_, by norm_num⟩
  · norm_num [kC1, kC1next]
  · norm_num [kC1next]

/-- C2: the empirical kcal/kg estimator returns
`empirical = |1/slope|` and `maintenance = −intercept/slope` whenever at
least 3 valid pairs exist and the regression is defined with non-zero
slope, and returns null with fewer than 3 pairs or an exactly-zero
slope. -/
theorem c2_empirical_estimator (entries : List WeightEntry) :
    (empN entries < 3 →
      (calculateEmpiricalKcalPerKg entries).empirical = none ∧
      (calculateEmpiricalKcalPerKg entries).maintenance = none)
    ∧ (3 ≤ empN entries → empDenom entries ≠ 0 → empSlope entries = 0 →
      (calculateEmpiricalKcalPerKg entries).empirical = none ∧
      (calculateEmpiricalKcalPerKg entries).maintenance = none)
    ∧ (3 ≤ empN entries → empDenom entries ≠ 0 → empSlope entries ≠ 0 →
      (calculateEmpiricalKcalPerKg entries).empirical = some |1 / empSlope entries| ∧
      (calculateEmpiricalKcalPerKg entries).maintenance =
        some (-(empIntercept entries) / empSlope entries)) := by
  refine ⟨fun h => ?_, fun h3 hd hs => ?_, fun h3 hd hs => ?_⟩
  · simp [calculateEmpiricalKcalPerKg, h]
  · simp [calculateEmpiricalKcalPerKg, Nat.not_lt.mpr h3, hd, hs]
  · simp [calculateEmpiricalKcalPerKg, Nat.not_lt.mpr h3, hd, hs]

/-- C2 witness: on `eC2` the three pairs lie on a line of slope 1/6000,
so the estimator returns 6000 kcal/kg with maintenance 1250 kcal. -/
theorem c2_empirical_estimator_witness :
    (calculateEmpiricalKcalPerKg eC2).empirical = some 6000 ∧
    (calculateEmpiricalKcalPerKg eC2).maintenance = some 1250 := by
  have hd1 : dayNumber ⟨2024, 0, 1⟩ = 19723 := by
    norm_num [dayNumber, leapYearsBefore, monthDaysBefore, isLeapYear]
  have hd3 : dayNumber ⟨2024, 0, 3⟩ = 19725 := by
    norm_num [dayNumber, leapYearsBefore, monthDaysBefore, isLeapYear]
  have hd5 : dayNumber ⟨2024, 0, 5⟩ = 19727 := by
    norm_num [dayNumber, leapYearsBefore, monthDaysBefore, isLeapYear]
  have hsort : sortByDate eC2 = eC2 := by
    simp +decide [sortByDate, eC2, List.insertionSort, List.orderedInsert, entryDateLe, dateLe]
  have hpairs : empPairs (sortByDate eC2) = [(2450, 1/5), (2600, 9/40), (2750, 1/4)] := by
    rw [hsort]
    simp only [eC2, empPairs, pairsFrom, List.filterMap_cons, List.filterMap_nil, hd1, hd3, hd5]
    norm_num
  have hn : empN eC2 = 3 := by simp [empN, hpairs]
  have hden : empDenom eC2 = 135000 := by
    simp only [empDenom, empSums, empN, hpairs]
    norm_num [sumQ]
  have hslope : empSlope eC2 = 1/6000 := by
    simp only [empSlope, empDenom, empSums, empN, hpairs]
    norm_num [sumQ]
  have hint : empIntercept eC2 = -5/24 := by
    simp only [empIntercept, empSlope, empDenom, empSums, empN, hpairs]
    norm_num [sumQ]
  have h := (c2_empirical_estimator eC2).2.2 (by rw [hn]) (by rw [hden]; norm_num)
    (by rw [hslope]; norm_num)
  refine ⟨h.1.trans ?_, h.2.trans ?_⟩
  · rw [hslope]; norm_num
  · rw [hslope, hint]; norm_num

/-- C3 (amended): `linearRegression` returns the neutral zeros for fewer
than 2 points, but with 2 or more points of zero variance in `x` the
unguarded division yields NaN for slope, intercept and R² instead of the
claimed neutral zeros (it still never throws). -/
theorem c3_linear_regression_degenerate :
    (∀ x y : List ℚ, x.length < 2 →
      linearRegression x y = ⟨some 0, some 0, some 0⟩)
    ∧ ∀ (x y : List ℚ) (c : ℚ), 2 ≤ x.length → (∀ a ∈ x, a = c) →
        linearRegression x y = ⟨none, none, none⟩ := by
  constructor
  · intro x y h
    simp [linearRegression, h]
  · intro x y c h2 hconst
    have hs := lrSlope_none_of_const (y := y) hconst
    have hi := lrIntercept_none hs
    have hr := lrR2_none hs hi
    simp [linearRegression, Nat.not_lt.mpr h2, hs, hi, hr]

/-- C3 counterexample: on the zero-variance input `x = [1, 1]`,
`y = [0, 1]` the regression result is entirely NaN; in particular the
slope is not the claimed neutral `0`. -/
theorem c3_linear_regression_counterexample :
    linearRegression [(1 : ℚ), 1] [(0 : ℚ), 1] = ⟨none, none, none⟩ ∧
    (linearRegression [(1 : ℚ), 1] [(0 : ℚ), 1]).slope ≠ some 0 := by
  with_unfolding_all decide

/-- C3 witness: the amended theorem applied at a one-point input and at
the concrete zero-variance input. -/
theorem c3_linear_regression_witness :
    linearRegression [(3 : ℚ)] [(4 : ℚ)] = ⟨some 0, some 0, some 0⟩ ∧
    linearRegression [(1 : ℚ), 1] [(0 : ℚ), 1] = ⟨none, none, none⟩ :=
  ⟨c3_linear_regression_degenerate.1 [3] [4] (by with_unfolding_all decide),
   c3_linear_regression_degenerate.2 [1, 1] [0, 1] 1 (by with_unfolding_all decide) (by with_unfolding_all decide)⟩

/-- C4 (amended): trend inference returns null for fewer than 2 points,
but the `n − 2` division in the mean square error is NOT guarded: for
exactly 2 points it divides by zero, so the slope standard error and the
slope confidence interval are NaN — not the claimed SE 0 with a
degenerate finite interval. -/
theorem c4_trend_inference_two_point_nan :
    (∀ (entries : List WeightEntry) (conf : ConfLevel) (f : ℚ → ℚ),
      entries.length < 2 → calculateCaloricInference entries conf f = none)
    ∧ ∀ (e0 e1 : WeightEntry) (conf : ConfLevel) (f : ℚ → ℚ),
        (calculateCaloricInference [e0, e1] conf f).map (·.slopeCI)
          = some (none, none) := by
  constructor
  · intro entries conf f h
    match entries with
    | [] => rfl
    | [_] => rfl
    | _ :: _ :: _ => exact absurd h (by simp)
  · intro e0 e1 conf f
    simp only [calculateCaloricInference, Option.map_some']
    norm_num [jsDiv_some_zero, jsDiv_none_left, jsSqrt_none, jsMul_none_right,
      jsSub_none_right, jsAdd_none_right]

/-- C4 counterexample: on the two-point log `eC4` the inferred rate is
the finite slope 1/13 kg/day, yet the slope confidence interval is
(NaN, NaN) — not the degenerate interval [slope, slope] with SE 0 that
the claim asserts. -/
theorem c4_trend_inference_counterexample :
    (calculateCaloricInference eC4 .c95 id).map (·.slopeCI) = some (none, none)
    ∧ (calculateCaloricInference eC4 .c95 id).map (·.weightChangeRate)
      = some (some (1 / 13)) := by
  constructor
  · with_unfolding_all decide
  · have hd1 : dayNumber ⟨2024, 0, 1⟩ = 19723 := by
      norm_num [dayNumber, leapYearsBefore, monthDaysBefore, isLeapYear]
    have hd14 : dayNumber ⟨2024, 0, 14⟩ = 19736 := by
      norm_num [dayNumber, leapYearsBefore, monthDaysBefore, isLeapYear]
    simp only [eC4]
    rw [ci_rate_proj]
    simp only [List.map_cons, List.map_nil, hd1, hd14]
    norm_num [linearRegression, lrSlope, lrSumXY, lrDenom, sumQ, jsSum, jsAdd, jsMul,
      jsSub, jsDiv, List.enum, List.enumFrom, List.get?]

/-- C4 witness: the amended theorem applied at the empty log and at the
concrete two-point log `eC4`. -/
theorem c4_trend_inference_witness :
    calculateCaloricInference [] .c95 id = none
    ∧ (calculateCaloricInference
        [(⟨⟨2024, 0, 1⟩, 70, none⟩ : WeightEntry), ⟨⟨2024, 0, 14⟩, 71, none⟩]
        .c95 id).map (·.slopeCI) = some (none, none) :=
  ⟨c4_trend_inference_two_point_nan.1 [] .c95 id (by simp),
   c4_trend_inference_two_point_nan.2 ⟨⟨2024, 0, 1⟩, 70, none⟩
     ⟨⟨2024, 0, 14⟩, 71, none⟩ .c95 id⟩

/-- C5: whenever the log spans at least `MIN_DAYS_FOR_INFERENCE` days,
the collaborators yield an average intake below the inferred
maintenance, the observed regression slope is positive, and the
observed-versus-expected gap lies outside the noise band, the intake
notice detector classifies `gain_despite_deficit` with a positive
suggested adjustment. -/
theorem c5_gain_despite_deficit (entries : List WeightEntry) (conf : ConfLevel)
    (inferenceFn : List WeightEntry → ConfLevel → Option CalInf)
    (empFn : List WeightEntry → EmpResult)
    (inference : CalInf) (avgIntake maintenance observed kcalPerKg : ℚ)
    (hinf : inferenceFn entries conf = some inference)
    (hm : inference.maintenanceCalories = some maintenance)
    (ha : getAverageIntake entries = some avgIntake)
    (hobs : noticeObserved entries = some observed)
    (hk : ((empFn entries).empirical).getD KCAL_PER_KG = kcalPerKg)
    (hdays : (MIN_DAYS_FOR_INFERENCE : ℤ) ≤ noticeDays entries)
    (hkpos : 0 < kcalPerKg)
    (hdeficit : avgIntake < maintenance)
    (hgain : 0 < observed)
    (hnoise : NOISE_BAND_KCAL
      < |(observed - (avgIntake - maintenance) / kcalPerKg) * kcalPerKg|) :
    (computeIntakeNotice entries conf inferenceFn empFn).map (·.direction)
      = some .gain_despite_deficit
    ∧ (computeIntakeNotice entries conf inferenceFn empFn).map (·.suggestedAdjustment)
      = some ((observed - (avgIntake - maintenance) / kcalPerKg) * kcalPerKg)
    ∧ 0 < (observed - (avgIntake - maintenance) / kcalPerKg) * kcalPerKg := by
  have hpos : 0 < (observed - (avgIntake - maintenance) / kcalPerKg) * kcalPerKg := by
    have hexp : (avgIntake - maintenance) / kcalPerKg < 0 :=
      div_neg_of_neg_of_pos (by linarith) hkpos
    exact mul_pos (by linarith) hkpos
  have hred : computeIntakeNotice entries conf inferenceFn empFn
      = some ⟨.gain_despite_deficit,
          (observed - (avgIntake - maintenance) / kcalPerKg) * kcalPerKg,
          observed, (avgIntake - maintenance) / kcalPerKg⟩ := by
    unfold computeIntakeNotice
    rw [if_neg (not_lt.mpr hdays), hinf]
    simp only [ha, hm, hobs, hk]
    rw [if_neg (not_le.mpr hnoise), if_pos hgain, if_pos hdeficit]
  rw [hred]
  exact ⟨rfl, rfl, hpos⟩

/-- C5 witness: on the 15-day gaining log `eC5` at a 2000 kcal intake
against a stubbed 2500 kcal maintenance, the detector flags
`gain_despite_deficit` with the positive adjustment 1050 kcal/day. -/
theorem c5_gain_despite_deficit_witness :
    (computeIntakeNotice eC5 .c95 infC5 empC5).map (·.direction)
      = some .gain_despite_deficit
    ∧ (computeIntakeNotice eC5 .c95 infC5 empC5).map (·.suggestedAdjustment)
      = some 1050 := by
  have hobs : noticeObserved eC5 = some (1 / 14) := by with_unfolding_all decide
  have ha : getAverageIntake eC5 = some 2000 := by with_unfolding_all decide
  have hdays : (MIN_DAYS_FOR_INFERENCE : ℤ) ≤ noticeDays eC5 := by
    with_unfolding_all decide
  have h := c5_gain_despite_deficit eC5 .c95 infC5 empC5 infC5val 2000 2500
    (1 / 14) 7700 rfl rfl ha hobs rfl hdays (by norm_num) (by norm_num)
    (by norm_num) (by rw [show ((1 : ℚ) / 14 - (2000 - 2500) / 7700) * 7700 = 1050 by norm_num]; norm_num [NOISE_BAND_KCAL])
  exact ⟨h.1, h.2.1.trans (by norm_num)⟩

/-- C6: the richer empirical estimator classifies as `insufficient`,
with a null empirical CI, whenever there are fewer than 3 valid pairs or
the slope confidence interval straddles zero. -/
theorem c6_insufficient_stability (entries : List WeightEntry)
    (conf : ConfLevel) (sqrtFn : ℚ → ℚ)
    (h : (empPairs (sortByDate entries)).length < 3
      ∨ empCIStraddles entries conf sqrtFn = true) :
    (calculateEmpiricalKcalPerKgHelper entries conf sqrtFn).stability
      = .insufficient
    ∧ (calculateEmpiricalKcalPerKgHelper entries conf sqrtFn).empiricalCI
      = none := by
  rcases h with hlen | hstraddle
  · have hinfo : empHelperSlopeInfo entries conf sqrtFn = none := by
      simp [empHelperSlopeInfo, hlen]
    simp [calculateEmpiricalKcalPerKgHelper, hinfo]
  · unfold empCIStraddles at hstraddle
    rcases hinfo : empHelperSlopeInfo entries conf sqrtFn with _ | info
    · rw [hinfo] at hstraddle
      cases hstraddle
    · rw [hinfo] at hstraddle
      have hcross := of_decide_eq_true hstraddle
      simp [calculateEmpiricalKcalPerKgHelper, hinfo, Or.inr hcross]

/-- C6 witness: the empty log has no pairs, hence `insufficient` with a
null CI. -/
theorem c6_insufficient_stability_witness :
    (calculateEmpiricalKcalPerKgHelper [] .c95 id).stability = .insufficient
    ∧ (calculateEmpiricalKcalPerKgHelper [] .c95 id).empiricalCI = none :=
  c6_insufficient_stability [] .c95 id (Or.inl (by with_unfolding_all decide))

/-- C7: the two-week bucketing violates the count-range property.  The
single entry 2024-01-04 (day 19726) is filed into the bucket keyed by
Thursday-aligned epoch weeks, whose reported range is
[2023-12-21, 2024-01-03] = [19712, 19725]; the bucket's row counts 1
entry while 0 source entries fall inside its [start, end] range. -/
theorem c7_two_week_bucket_range_mismatch :
    (getGroupInfo ⟨2024, 0, 4⟩ .g2w).startDay = 19712
    ∧ (getGroupInfo ⟨2024, 0, 4⟩ .g2w).endDay = 19725
    ∧ dayNumber ⟨2024, 0, 4⟩ = 19726
    ∧ weeklyGroups eC7 .g2w = [⟨.wk2 19712, 19712, eC7⟩]
    ∧ (resultsOf id (weeklyGroups eC7 .g2w) .c95).map (·.dataLength) = [1]
    ∧ eC7.countP (fun e =>
        decide ((getGroupInfo ⟨2024, 0, 4⟩ .g2w).startDay ≤ dayNumber e.date
          ∧ dayNumber e.date ≤ (getGroupInfo ⟨2024, 0, 4⟩ .g2w).endDay)) = 0 := by
  have hday : dayNumber ⟨2024, 0, 4⟩ = 19726 := by
    norm_num [dayNumber, leapYearsBefore, monthDaysBefore, isLeapYear]
  have hgi : getGroupInfo ⟨2024, 0, 4⟩ .g2w = ⟨.wk2 19712, 19712, 19725⟩ := by
    rw [getGroupInfo]
    simp only [hday]
    norm_num [startOfWeekDay]
  have hgroups : weeklyGroups eC7 .g2w = [⟨.wk2 19712, 19712, eC7⟩] := by
    simp [weeklyGroups, eC7, pushGroup, hgi, sortByDate, List.insertionSort,
      List.orderedInsert]
  have hres : (resultsOf id (weeklyGroups eC7 .g2w) .c95).map (·.dataLength) = [1] := by
    rw [hgroups]
    norm_num [resultsOf, statsFor, eC7, computeMean, sumQ, jsDiv]
  refine ⟨by rw [hgi], by rw [hgi], hday, hgroups, hres, ?_⟩
  rw [hgi]
  simp [eC7, List.countP, List.countP.go, hday]

/-- C8: after validation, adding an entry removes any prior entry of the
same date and re-sorts, so the log invariant — strictly ascending dates,
hence at most one entry per date — is preserved, the new entry is
present, every same-date row equals the new entry (last write wins),
all other entries survive, and nothing else is introduced; no error is
ever raised (the function is total). -/
theorem c8_add_entry_last_write_wins (entries : List WeightEntry) (d : CivilDate)
    (w : ℚ) (c : Option ℚ) (hw : 0 < w) (hc : ∀ cv ∈ c, 0 < cv)
    (hinv : entries.Pairwise entryDateLt) :
    (addEntry entries d w c).Pairwise entryDateLt
    ∧ (⟨d, w, c⟩ : WeightEntry) ∈ addEntry entries d w c
    ∧ (∀ e ∈ addEntry entries d w c, e.date = d → e = ⟨d, w, c⟩)
    ∧ (∀ e ∈ entries, e.date ≠ d → e ∈ addEntry entries d w c)
    ∧ (∀ e ∈ addEntry entries d w c, e = ⟨d, w, c⟩ ∨ e ∈ entries) := by
  have hred : addEntry entries d w c
      = sortByDate (entries.filter (fun e => decide (e.date ≠ d)) ++ [⟨d, w, c⟩]) := by
    unfold addEntry
    rw [if_neg (not_le.mpr hw), if_neg ?hcal]
    case hcal =>
      cases c with
      | none => exact Bool.false_ne_true
      | some cv =>
        simp only [decide_eq_true_eq]
        exact not_le.mpr (hc cv rfl)
  have hperm : List.Perm
      (sortByDate (entries.filter (fun e => decide (e.date ≠ d)) ++ [⟨d, w, c⟩]))
      (entries.filter (fun e => decide (e.date ≠ d)) ++ [⟨d, w, c⟩]) :=
    List.perm_insertionSort _ _
  have hsorted : List.Sorted entryDateLe
      (sortByDate (entries.filter (fun e => decide (e.date ≠ d)) ++ [⟨d, w, c⟩])) :=
    List.sorted_insertionSort _ _
  have hmemfil : ∀ e : WeightEntry,
      e ∈ entries.filter (fun e => decide (e.date ≠ d)) ↔ e ∈ entries ∧ e.date ≠ d := by
    intro e
    simp [List.mem_filter]
  have hfinv : (entries.filter (fun e => decide (e.date ≠ d))).Pairwise entryDateLt :=
    hinv.sublist (List.filter_sublist _)
  have hLnd : (entries.filter (fun e => decide (e.date ≠ d))
      ++ [(⟨d, w, c⟩ : WeightEntry)]).Pairwise (fun a b => a.date ≠ b.date) := by
    apply List.pairwise_append.mpr
    refine ⟨hfinv.imp (fun h => entryDateLt_date_ne h), List.pairwise_singleton _ _, ?_⟩
    intro a ha b hb
    rw [List.mem_singleton] at hb
    subst hb
    exact ((hmemfil a).mp ha).2
  have hSnd : (sortByDate (entries.filter (fun e => decide (e.date ≠ d))
      ++ [(⟨d, w, c⟩ : WeightEntry)])).Pairwise (fun a b => a.date ≠ b.date) := by
    have h1 : ((entries.filter (fun e => decide (e.date ≠ d))
        ++ [(⟨d, w, c⟩ : WeightEntry)]).map (·.date)).Nodup :=
      List.pairwise_map.mpr hLnd
    have h2 : ((sortByDate (entries.filter (fun e => decide (e.date ≠ d))
        ++ [(⟨d, w, c⟩ : WeightEntry)])).map (·.date)).Nodup :=
      ((hperm.map (·.date)).nodup_iff).mpr h1
    exact List.pairwise_map.mp h2
  have hstrict := pairwise_lt_of_sorted_nodup hsorted hSnd
  rw [hred]
  refine ⟨hstrict, ?_, ?_, ?_, ?_⟩
  · exact hperm.mem_iff.mpr (List.mem_append_right _ (List.mem_singleton_self _))
  · intro e he hdate
    rcases List.mem_append.mp (hperm.mem_iff.mp he) with hf | hn
    · exact absurd hdate ((hmemfil e).mp hf).2
    · exact List.mem_singleton.mp hn
  · intro e he hne
    exact hperm.mem_iff.mpr (List.mem_append_left _ ((hmemfil e).mpr ⟨he, hne⟩))
  · intro e he
    rcases List.mem_append.mp (hperm.mem_iff.mp he) with hf | hn
    · exact Or.inr ((hmemfil e).mp hf).1
    · exact Or.inl (List.mem_singleton.mp hn)

/-- C8 witness: overwriting the single entry of `eC8` by a new weight on
the same date keeps one strictly-dated row containing the new values. -/
theorem c8_add_entry_witness :
    (addEntry eC8 dC8 72 none).Pairwise entryDateLt
    ∧ (⟨dC8, 72, none⟩ : WeightEntry) ∈ addEntry eC8 dC8 72 none := by
  have h := c8_add_entry_last_write_wins eC8 dC8 72 none (by norm_num)
    (by simp) (by simp [eC8])
  exact ⟨h.1, h.2.1⟩

/-- C9: the body composition estimator is a pure function — two runs on
equal inputs yield equal estimate series and equal proposed
calibrations. -/
theorem c9_body_composition_idempotent
    (e1 e2 : List WeightEntry) (m1 m2 : List BodyMeasurement)
    (s1 s2 : Option ℚ) (k1 k2 : CalibrationFactor)
    (conf1 conf2 : ConfLevel) (f : ℚ → ℚ)
    (he : e1 = e2) (hm : m1 = m2) (hs : s1 = s2) (hk : k1 = k2)
    (hc : conf1 = conf2) :
    (calculateBodyComposition e1 m1 s1 k1 conf1 f).estimates
      = (calculateBodyComposition e2 m2 s2 k2 conf2 f).estimates
    ∧ (calculateBodyComposition e1 m1 s1 k1 conf1 f).newCalibrationFactor
      = (calculateBodyComposition e2 m2 s2 k2 conf2 f).newCalibrationFactor := by
  subst he hm hs hk hc
  exact ⟨rfl, rfl⟩

/-- C9 witness: the theorem applied at the concrete `eC1` inputs. -/
theorem c9_body_composition_idempotent_witness :
    (calculateBodyComposition eC1 mC1 (some 20) kC1 .c95 id).estimates
      = (calculateBodyComposition eC1 mC1 (some 20) kC1 .c95 id).estimates
    ∧ (calculateBodyComposition eC1 mC1 (some 20) kC1 .c95 id).newCalibrationFactor
      = (calculateBodyComposition eC1 mC1 (some 20) kC1 .c95 id).newCalibrationFactor :=
  c9_body_composition_idempotent eC1 eC1 mC1 mC1 (some 20) (some 20) kC1 kC1
    .c95 .c95 id rfl rfl rfl rfl rfl

/-- The estimate-side state of the estimator pass never reads the
calibration proposal state. -/
theorem runBody_estimates_calibration_free (ctx : BodyCompCtx)
    (prev : Option WeightEntry) (todo : List WeightEntry) (c : CompState)
    (k1 k2 : CalibState) :
    (runBody ctx prev todo c k1).1 = (runBody ctx prev todo c k2).1 := by
  induction todo generalizing prev c k1 k2 with
  | nil => rfl
  | cons e rest ih =>
    simp only [runBody]
    exact ih (some e) (bodyCompStep ctx e prev c) _ _

/-- The estimate side of the whole pass is independent of the incoming
calibration state. -/
theorem bodyCompRun_fst (entries : List WeightEntry)
    (measurements : List BodyMeasurement) (sbf : ℚ) (conf : ConfLevel)
    (f : ℚ → ℚ) (k1 k2 : CalibState) :
    (bodyCompRun entries measurements sbf conf f k1).1
      = (bodyCompRun entries measurements sbf conf f k2).1 := by
  rcases hs : sortByDate entries with _ | ⟨s0, srest⟩ <;>
    simp only [bodyCompRun, hs]
  exact runBody_estimates_calibration_free _ _ _ _ _ _

/-- C10: the calibration-factor input influences only the proposed new
calibration — the per-entry estimate series is identical for any two
calibration inputs, all other inputs held equal. -/
theorem c10_estimates_independent_of_calibration
    (entries : List WeightEntry) (measurements : List BodyMeasurement)
    (sbf : Option ℚ) (conf : ConfLevel) (f : ℚ → ℚ)
    (k1 k2 : CalibrationFactor) :
    (calculateBodyComposition entries measurements sbf k1 conf f).estimates
      = (calculateBodyComposition entries measurements sbf k2 conf f).estimates := by
  cases sbf with
  | none => rfl
  | some s =>
    simp only [calculateBodyComposition]
    by_cases he : entries.isEmpty
    · simp [he]
    · simp only [he, Bool.false_eq_true, if_false]
      exact congrArg CompState.results
        (bodyCompRun_fst entries measurements s conf f ⟨k1, false⟩ ⟨k2, false⟩)

end WeightTrack
